import Mathlib

/-!
Shallow embedding of the Jain Foam & Furnishing backend (`main.py`):
the contact-submission orchestrator (`submit_contact`, `send_email_notification`,
the `ContactSubmission` validation model) and the rule-based chat responder
(`chatbot`), together with theorems about the properties stated in the design
document.
-/

set_option maxRecDepth 100000

namespace JainFoam

/-! ## Python string primitives

The backend manipulates Python `str` values with `.lower()`, `.strip()` and the
substring operator `in`.  We embed strings as Lean `String` and model those
operations on the underlying character lists.  Case mapping is modelled on the
ASCII letters (the only characters the rule table and the design document's
examples use). -/

/-- Model of lowercasing a single character: ASCII `A`–`Z` maps to `a`–`z`,
everything else is unchanged. -/
def lowerChar (c : Char) : Char :=
  if 65 ≤ c.toNat ∧ c.toNat ≤ 90 then Char.ofNat (c.toNat + 32) else c

/-- Model of uppercasing a single character: ASCII `a`–`z` maps to `A`–`Z`,
everything else is unchanged. -/
def upperChar (c : Char) : Char :=
  if 97 ≤ c.toNat ∧ c.toNat ≤ 122 then Char.ofNat (c.toNat - 32) else c

/-- Model of Python `str.lower()`. -/
def pyLower (s : String) : String :=
  ⟨s.data.map lowerChar⟩

/-- Python `str.upper()` applies the full Unicode uppercase mapping, under
which a character may expand to several characters: `"ß".upper() = "SS"`.
This model covers the ASCII letters and the sharp s — the characters the
case-invariance discussion exercises. -/
def upperCharFull (c : Char) : List Char :=
  if c = 'ß' then ['S', 'S'] else [upperChar c]

/-- Model of Python `str.upper()` (used only to state the case-invariance
property). -/
def pyUpper (s : String) : String :=
  ⟨s.data.flatMap upperCharFull⟩

/-- Is every character of the string ASCII?  On such strings the modelled
case maps agree exactly with Python's. -/
def asciiOnly (s : String) : Bool :=
  s.data.all (fun c => c.toNat ≤ 127)

/-- Drop leading whitespace from a character list. -/
def stripLeft (l : List Char) : List Char :=
  l.dropWhile Char.isWhitespace

/-- Model of Python `str.strip()`: remove leading and trailing whitespace. -/
def pyStrip (s : String) : String :=
  ⟨(stripLeft (stripLeft s.data).reverse).reverse⟩

/-- Does `needle` occur as a contiguous sublist of `hay`?  Model of Python's
`needle in hay` on strings, on the underlying character lists. -/
def containsSubList (needle : List Char) : List Char → Bool
  | [] => needle.isEmpty
  | c :: t => needle.isPrefixOf (c :: t) || containsSubList needle t

/-- Model of Python's substring test `needle in hay`. -/
def pyIn (needle hay : String) : Bool :=
  containsSubList needle.data hay.data

/-! ## The chat responder (`chatbot`, `main.py` lines 133–164) -/

/-- Request body of `POST /api/chatbot` (`ChatRequest` in `main.py`). -/
structure ChatRequest where
  message : String

/-- Response payload of the chatbot endpoint (`{"reply": text}`). -/
structure ChatReply where
  reply : String
deriving DecidableEq

def hoursTriggers : List String := ["time", "timing", "open", "closing", "hours"]

def addressTriggers : List String := ["address", "location", "where", "map", "reach"]

def deliveryTriggers : List String := ["deliver", "delivery", "same day", "home delivery"]

def priceTriggers : List String := ["price", "cost", "rate", "charges"]

def productTriggers : List String :=
  ["mattress", "curtain", "sofa", "wallpaper", "carpet", "blinds", "pillow",
   "cushion", "grass", "floor", "rug"]

def contactTriggers : List String := ["contact", "phone", "call", "whatsapp"]

def socialTriggers : List String := ["instagram", "photo", "gallery"]

def greetingTriggers : List String := ["hello", "hi", "hey"]

def hoursReply : String :=
  "We are open every day from 10:00 AM to 10:00 PM. Same-day delivery is available."

def addressReply : String :=
  "Shop No. 8-9, Panch Bhagini Sadan, BP Road, Opp. Vijay Punjab Hotel, Bhayandar East, Thane, Mira Bhayandar, Maharashtra 401105. Search \x27Jain Foam & Furnishing\x27 on Google Maps for directions."

def deliveryReply : String :=
  "Yes, we offer same-day delivery across Bhayandar, Mira Road, and Dahisar."

def priceReply : String :=
  "Prices vary by product and customization. Share what you need (mattress size, curtain fabric, sofa design) and we’ll give you the best quote."

def productReply : String :=
  "We stock premium mattresses, curtains, wallpapers, carpets, PVC flooring, window blinds, sofa making & repair, pillows, cushions and more. Tell me what you’re looking for."

def contactReply : String :=
  "You can call us at 083690 51217 or email raiv5253@gmail.com. We’re happy to help!"

def socialReply : String :=
  "Check our latest updates and photos on Instagram: @jain_foam — https://www.instagram.com/jain_foam?igsh=bDZhanJrNHJ0NXdv"

def greetingReply : String :=
  "Hi! I’m your assistant for Jain Foam & Furnishing. Ask me about products, timings, delivery, or pricing."

def defaultReply : String :=
  "I didn’t catch that. Ask me about products, prices, timings, delivery, or our location."

/-- `any(k in user for k in triggers)`: does any trigger substring occur in the
normalized text? -/
def matchesAny (user : String) (triggers : List String) : Bool :=
  triggers.any (fun k => pyIn k user)

/-- Normalization applied by the responder: `req.message.lower().strip()`. -/
def normalize (msg : String) : String :=
  pyStrip (pyLower msg)

/-- The rule cascade of `chatbot` over the already-normalized text `user`:
the eight `if any(k in user ...)` tests in source order, then the default. -/
def resolveUser (user : String) : ChatReply :=
  if matchesAny user hoursTriggers then ⟨hoursReply⟩
  else if matchesAny user addressTriggers then ⟨addressReply⟩
  else if matchesAny user deliveryTriggers then ⟨deliveryReply⟩
  else if matchesAny user priceTriggers then ⟨priceReply⟩
  else if matchesAny user productTriggers then ⟨productReply⟩
  else if matchesAny user contactTriggers then ⟨contactReply⟩
  else if matchesAny user socialTriggers then ⟨socialReply⟩
  else if matchesAny user greetingTriggers then ⟨greetingReply⟩
  else ⟨defaultReply⟩

/-- The chat responder, `chatbot` in `main.py`: normalize
(`req.message.lower().strip()`), then evaluate the eight keyword rules in
source order, returning the first match or the default fallback reply. -/
def chatbot (req : ChatRequest) : ChatReply :=
  resolveUser (normalize req.message)

/-- The rule table in canonical order, as the design document describes it:
an ordered list of (trigger set, reply) pairs. -/
def ruleTable : List (List String × String) :=
  [(hoursTriggers, hoursReply),
   (addressTriggers, addressReply),
   (deliveryTriggers, deliveryReply),
   (priceTriggers, priceReply),
   (productTriggers, productReply),
   (contactTriggers, contactReply),
   (socialTriggers, socialReply),
   (greetingTriggers, greetingReply)]

/-- First-match evaluation of the rule table, written the way the design
document specifies the responder: the reply of the first rule in table order
any of whose triggers occurs in the normalized input, else the default. -/
def specResolve (msg : String) : String :=
  match ruleTable.find? (fun r => matchesAny (normalize msg) r.1) with
  | some r => r.2
  | none => defaultReply

/-- The ten product-category keywords as the design document enumerates them
(`mattress, curtain, sofa, wallpaper, carpet, blinds, pillow, cushion,
flooring, rug`) — stated from the spec's words, to be compared against the
source's `productTriggers`. -/
def specTenKeywords : List String :=
  ["mattress", "curtain", "sofa", "wallpaper", "carpet", "blinds", "pillow",
   "cushion", "flooring", "rug"]

/-! ## The contact pipeline (`ContactSubmission`, `send_email_notification`,
`submit_contact`) -/

/-- Request body of `POST /api/contact` (`ContactSubmission` in `main.py`);
`email` is optional. -/
structure ContactSubmission where
  name : String
  phone : String
  email : Option String
  message : String

/-- Modelled from the spec (pydantic `EmailStr` is library code outside the
repository): "optional, must be a syntactically valid email address if
present"; validity is modelled as containing an `@`.  Every claim exercises
only the `none` case. -/
def emailOk : Option String → Bool
  | none => true
  | some e => e.contains '@'

/-- The pydantic field validation of `ContactSubmission` (lines 23–27):
`name` min length 2, `phone` length 6–20, `message` length 5–1000, optional
email.  Python `len` on `str` counts characters, as `String.length` does. -/
def validContact (c : ContactSubmission) : Bool :=
  decide (2 ≤ c.name.length) &&
  decide (6 ≤ c.phone.length) && decide (c.phone.length ≤ 20) &&
  emailOk c.email &&
  decide (5 ≤ c.message.length) && decide (c.message.length ≤ 1000)

/-- Truthiness of `os.getenv` results: Python `not x` holds for `None` and
for the empty string. -/
def pyTruthy : Option String → Bool
  | none => false
  | some s => !s.isEmpty

/-- `os.getenv(var, default)`: the default applies only when the variable is
unset. -/
def getenvD (v : Option String) (d : String) : String :=
  match v with
  | some s => s
  | none => d

/-- Python `x or d` on an optional string: `x` if set and non-empty, else `d`. -/
def pyOrElse (v : Option String) (d : String) : String :=
  match v with
  | some s => if s.isEmpty then d else s
  | none => d

/-- Numeric value of a digit string. -/
def digitsToNat (l : List Char) : Nat :=
  l.foldl (fun acc c => 10 * acc + (c.toNat - 48)) 0

/-- Model of Python `int(s)` on a string: surrounding whitespace, an optional
sign, then a nonempty run of digits; anything else raises `ValueError`
(an `.error` here).  Underscore digit grouping is not modelled — no claim
depends on it. -/
def pyInt (s : String) : Except String Int :=
  let stripped := (pyStrip s).data
  let signed : List Char × Int :=
    match stripped with
    | '+' :: rest => (rest, 1)
    | '-' :: rest => (rest, -1)
    | rest => (rest, 1)
  if !signed.1.isEmpty && signed.1.all Char.isDigit then
    Except.ok (signed.2 * (digitsToNat signed.1 : Int))
  else
    Except.error ("invalid literal for int() with base 10: " ++ s)

/-- The environment a request runs in: the SMTP environment variables as
`os.getenv` sees them, whether the `database` module produced a client
(`db is not None`), and oracles for the two external effects — the outcome
of `create_document` if it is attempted, and the outcome of the
connect → starttls → login → send sequence if it is attempted.  `.error`
models a raised exception. -/
structure Env where
  dbPresent : Bool
  writeResult : Except String Unit
  smtpHost : Option String
  smtpPortStr : Option String
  smtpUser : Option String
  smtpPass : Option String
  smtpTo : Option String
  smtpFrom : Option String
  smtpResult : Except String Unit

/-- Replace only the persistence-related components of an environment. -/
def setDb (env : Env) (dbp : Bool) (wr : Except String Unit) : Env :=
  ⟨dbp, wr, env.smtpHost, env.smtpPortStr, env.smtpUser, env.smtpPass,
   env.smtpTo, env.smtpFrom, env.smtpResult⟩

/-- The email body built at lines 94–100. -/
def emailBody (s : ContactSubmission) : String :=
  "New enquiry received from website\n\n" ++
  "Name: " ++ s.name ++ "\n" ++
  "Phone: " ++ s.phone ++ "\n" ++
  "Email: " ++ pyOrElse s.email "-" ++ "\n\n" ++
  "Message:\n" ++ s.message ++ "\n"

/-- Setting a header value on an `EmailMessage` (`msg["Subject"] = ...`):
the default email policy raises `ValueError` when the value contains a
linefeed or carriage return, and succeeds otherwise. -/
def setHeader (v : String) : Except String Unit :=
  if v.data.any (fun c => c == '\n' || c == '\r') then
    Except.error "Header values may not contain linefeed or carriage return characters"
  else
    Except.ok ()

/-- `send_email_notification` (lines 76–110).  A returned `.error` models an
exception escaping the function (nothing before the `try` block is
protected); `.ok b` models `return b`.  The parse of `SMTP_PORT` happens
first, before the configuration guard; the guard returns `False` when any of
host/user/password is unset or empty; afterwards the message headers are set
(each can raise on an embedded newline, uncaught), the body is built, and
the send sequence's outcome is caught, mapping success to `True` and any
exception to `False`. -/
def send_email_notification (env : Env) (submission : ContactSubmission) :
    Except String Bool := do
  let _smtp_port ← pyInt (getenvD env.smtpPortStr "587")
  let to_email := getenvD env.smtpTo "raiv5253@gmail.com"
  let from_email := getenvD env.smtpFrom (pyOrElse env.smtpUser "no-reply@jain-foam.local")
  if !(pyTruthy env.smtpHost) || !(pyTruthy env.smtpUser) || !(pyTruthy env.smtpPass) then
    return false
  let _ ← setHeader ("New Enquiry from " ++ submission.name)
  let _ ← setHeader from_email
  let _ ← setHeader to_email
  let _body := emailBody submission
  match env.smtpResult with
  | Except.ok _ => return true
  | Except.error _ => return false


/-- The body of the `try` block in `submit_contact` (lines 115–119): raise if
`db is None`, else the `create_document` write with its oracle outcome. -/
def persistAttempt (env : Env) (_submission : ContactSubmission) : Except String Unit :=
  if env.dbPresent then env.writeResult else Except.error "Database not configured"

/-- Response payload of `POST /api/contact`. -/
structure ContactResponse where
  ok : Bool
  message : String
  email_sent : Bool
deriving DecidableEq

/-- The fixed acknowledgment message (line 128). -/
def ackMessage : String :=
  "Thank you! Your enquiry has been received. We\x27ll reach out shortly."

/-- `submit_contact` (lines 113–130): the persistence attempt's outcome is
discarded (`except Exception: pass`), then the notification attempt runs
outside any `try` (so a raise there propagates), then the fixed success
payload is returned. -/
def submit_contact (env : Env) (submission : ContactSubmission) :
    Except String ContactResponse := do
  let _persist := persistAttempt env submission
  let email_sent ← send_email_notification env submission
  return ⟨true, ackMessage, email_sent⟩

theorem char_toNat_ofNat_lt (m : Nat) (h : m < 55296) : (Char.ofNat m).toNat = m := by
  rw [Char.ofNat, dif_pos (Or.inl h)]
  rfl

theorem lowerChar_upperChar (c : Char) : lowerChar (upperChar c) = lowerChar c := by
  unfold upperChar lowerChar
  by_cases h : 97 ≤ c.toNat ∧ c.toNat ≤ 122
  · rw [if_pos h]
    have hv : (Char.ofNat (c.toNat - 32)).toNat = c.toNat - 32 :=
      char_toNat_ofNat_lt _ (by omega)
    rw [hv]
    rw [if_pos (show 65 ≤ c.toNat - 32 ∧ c.toNat - 32 ≤ 90 by omega),
        if_neg (show ¬(65 ≤ c.toNat ∧ c.toNat ≤ 90) by omega)]
    have h32 : c.toNat - 32 + 32 = c.toNat := by omega
    rw [h32, Char.ofNat_toNat]
  · rw [if_neg h]

theorem flatMap_upperCharFull_ascii :
    ∀ l : List Char, (∀ c ∈ l, c.toNat ≤ 127) →
      l.flatMap upperCharFull = l.map upperChar := by
  intro l
  induction l with
  | nil => intro _; rfl
  | cons a t ih =>
    intro h
    have ha : a.toNat ≤ 127 := h a (List.mem_cons_self a t)
    have hne : a ≠ 'ß' := by
      intro hEq
      rw [hEq] at ha
      exact absurd ha (by decide)
    rw [List.flatMap_cons, List.map_cons, ih (fun c hc => h c (List.mem_cons_of_mem a hc))]
    unfold upperCharFull
    rw [if_neg hne]
    rfl

theorem pyLower_pyUpper (s : String) (h : asciiOnly s = true) :
    pyLower (pyUpper s) = pyLower s := by
  have h' := h
  unfold asciiOnly at h'
  have hc : ∀ c ∈ s.data, c.toNat ≤ 127 :=
    fun c hcc => of_decide_eq_true (List.all_eq_true.mp h' c hcc)
  unfold pyLower pyUpper
  show String.mk ((s.data.flatMap upperCharFull).map lowerChar) = String.mk (s.data.map lowerChar)
  rw [flatMap_upperCharFull_ascii s.data hc, List.map_map]
  exact congrArg String.mk (List.map_congr_left (fun a _ => lowerChar_upperChar a))

theorem normalize_pyUpper (s : String) (h : asciiOnly s = true) :
    normalize (pyUpper s) = normalize s := by
  unfold normalize
  rw [pyLower_pyUpper s h]

theorem stripLeft_cons_space (l : List Char) : stripLeft (' ' :: l) = stripLeft l := by
  simp [stripLeft, List.dropWhile_cons]

theorem stripBoth_pad (m : List Char) :
    (stripLeft (stripLeft (' ' :: (m ++ [' ']))).reverse).reverse
      = (stripLeft (stripLeft m).reverse).reverse := by
  rw [stripLeft_cons_space]
  by_cases he : (m.dropWhile Char.isWhitespace).isEmpty
  · have hm : stripLeft m = [] := List.isEmpty_iff.mp he
    have h1 : stripLeft (m ++ [' ']) = [] := by
      unfold stripLeft
      rw [List.dropWhile_append, if_pos he]
      rfl
    rw [h1, hm]
  · have h1 : stripLeft (m ++ [' ']) = stripLeft m ++ [' '] := by
      unfold stripLeft
      rw [List.dropWhile_append, if_neg he]
    rw [h1, List.reverse_append]
    simp only [List.reverse_cons, List.reverse_nil, List.nil_append, List.singleton_append]
    rw [stripLeft_cons_space]

theorem normalize_pad (s : String) : normalize (" " ++ s ++ " ") = normalize s := by
  unfold normalize pyLower pyStrip
  have hd : (" " ++ s ++ " ").data = ' ' :: (s.data ++ [' ']) := by
    simp [String.data_append]
  rw [hd]
  have hsp : lowerChar ' ' = ' ' := by decide
  simp only [List.map_cons, List.map_append, List.map_nil, hsp]
  exact congrArg String.mk (stripBoth_pad (s.data.map lowerChar))

theorem resolveUser_eq_find (u : String) :
    (resolveUser u).reply =
      (match ruleTable.find? (fun r => matchesAny u r.1) with
       | some r => r.2
       | none => defaultReply) := by
  unfold resolveUser ruleTable
  cases h1 : matchesAny u hoursTriggers <;>
    cases h2 : matchesAny u addressTriggers <;>
      cases h3 : matchesAny u deliveryTriggers <;>
        cases h4 : matchesAny u priceTriggers <;>
          cases h5 : matchesAny u productTriggers <;>
            cases h6 : matchesAny u contactTriggers <;>
              cases h7 : matchesAny u socialTriggers <;>
                cases h8 : matchesAny u greetingTriggers <;>
                  simp [List.find?_cons, h1, h2, h3, h4, h5, h6, h7, h8]

/-! ## Claim theorems: the chat responder -/

/-- C4: the responder evaluates the eight rules in the canonical order
(hours, address, delivery, price, product, contact, social, greeting) and
returns the reply of the first rule any of whose trigger substrings occurs in
the normalized input; in particular "hi, what are your hours" yields the
opening-hours reply, not the greeting reply. -/
theorem claim_C4_ordered_first_match :
    (∀ s : String, (chatbot ⟨s⟩).reply = specResolve s) ∧
    (chatbot ⟨"hi, what are your hours"⟩).reply = hoursReply := by
  refine ⟨fun s => ?_, by decide⟩
  show (resolveUser (normalize s)).reply = specResolve s
  exact resolveUser_eq_find (normalize s)

/-- C5 as stated is false on the code: Python's full Unicode case mapping
gives `"graß".upper() = "GRASS"`, the responder returns the default fallback
for "graß" (code-point-wise it contains no trigger) but the product reply
for "GRASS", so the result is not invariant under uppercasing for every
string. -/
theorem claim_C5_counterexample :
    pyUpper "graß" = "GRASS" ∧
    (chatbot ⟨"graß"⟩).reply = defaultReply ∧
    (chatbot ⟨pyUpper "graß"⟩).reply = productReply ∧
    chatbot ⟨pyUpper "graß"⟩ ≠ chatbot ⟨"graß"⟩ :=
  ⟨by decide, by decide, by decide, by decide⟩

/-- C5 (amended: case invariance restricted to ASCII inputs, which full
Unicode case mapping breaks at "graß"): the responder is a pure
deterministic function of the input text; adding leading/trailing
whitespace never changes the result; uppercasing changes nothing for every
ASCII string; and "HELLO", " hello " and "hello" all yield the greeting
reply. -/
theorem claim_C5_case_whitespace_invariant :
    (∀ s : String, chatbot ⟨" " ++ s ++ " "⟩ = chatbot ⟨s⟩) ∧
    (∀ s : String, asciiOnly s = true → chatbot ⟨pyUpper s⟩ = chatbot ⟨s⟩) ∧
    (chatbot ⟨"HELLO"⟩).reply = greetingReply ∧
    (chatbot ⟨" hello "⟩).reply = greetingReply ∧
    (chatbot ⟨"hello"⟩).reply = greetingReply := by
  refine ⟨fun s => ?_, fun s h => ?_, by decide, by decide, by decide⟩
  · show resolveUser (normalize (" " ++ s ++ " ")) = resolveUser (normalize s)
    rw [normalize_pad]
  · show resolveUser (normalize (pyUpper s)) = resolveUser (normalize s)
    rw [normalize_pyUpper s h]

/-- Witness for C5 (amended) at the ASCII input "hello". -/
theorem claim_C5_case_whitespace_invariant_witness :
    chatbot ⟨pyUpper "hello"⟩ = chatbot ⟨"hello"⟩ :=
  claim_C5_case_whitespace_invariant.2.1 "hello" (by decide)

/-- C6 as stated is false on the code: on input "grass" the first four rules
do not match, none of the spec's ten product keywords occurs in the
normalized text, and yet the responder returns the product-catalog reply
(the source's trigger list also has "grass" and the bare "floor"). -/
theorem claim_C6_counterexample :
    matchesAny (normalize "grass") hoursTriggers = false ∧
    matchesAny (normalize "grass") addressTriggers = false ∧
    matchesAny (normalize "grass") deliveryTriggers = false ∧
    matchesAny (normalize "grass") priceTriggers = false ∧
    specTenKeywords.all (fun k => !(pyIn k (normalize "grass"))) = true ∧
    (chatbot ⟨"grass"⟩).reply = productReply :=
  ⟨by decide, by decide, by decide, by decide, by decide, by decide⟩

/-- C6 (amended): for every input on which none of the first four rules
matches, the responder returns the product-catalog reply if and only if the
normalized text contains one of the source's eleven product trigger
substrings (mattress, curtain, sofa, wallpaper, carpet, blinds, pillow,
cushion, grass, floor, rug). -/
theorem claim_C6_product_rule (s : String)
    (h1 : matchesAny (normalize s) hoursTriggers = false)
    (h2 : matchesAny (normalize s) addressTriggers = false)
    (h3 : matchesAny (normalize s) deliveryTriggers = false)
    (h4 : matchesAny (normalize s) priceTriggers = false) :
    (chatbot ⟨s⟩).reply = productReply ↔
      matchesAny (normalize s) productTriggers = true := by
  show (resolveUser (normalize s)).reply = productReply ↔ _
  unfold resolveUser
  simp only [h1, h2, h3, h4, Bool.false_eq_true, if_false]
  cases h5 : matchesAny (normalize s) productTriggers
  · cases h6 : matchesAny (normalize s) contactTriggers <;>
      cases h7 : matchesAny (normalize s) socialTriggers <;>
        cases h8 : matchesAny (normalize s) greetingTriggers <;>
          simp [h6, h7, h8] <;> decide
  · simp

/-- Witness for C6 (amended) at the concrete input "rug". -/
theorem claim_C6_product_rule_witness :
    (chatbot ⟨"rug"⟩).reply = productReply ↔
      matchesAny (normalize "rug") productTriggers = true :=
  claim_C6_product_rule "rug" (by decide) (by decide) (by decide) (by decide)

/-- C7: whenever no rule's trigger occurs in the normalized input, the
responder returns exactly the fixed default fallback reply; in particular on
"asdkjasd". -/
theorem claim_C7_default_fallback :
    (∀ s : String, (∀ r ∈ ruleTable, matchesAny (normalize s) r.1 = false) →
      (chatbot ⟨s⟩).reply = defaultReply) ∧
    (chatbot ⟨"asdkjasd"⟩).reply = defaultReply := by
  refine ⟨fun s h => ?_, by decide⟩
  show (resolveUser (normalize s)).reply = defaultReply
  rw [resolveUser_eq_find]
  have hn : ruleTable.find? (fun r => matchesAny (normalize s) r.1) = none :=
    List.find?_eq_none.mpr (fun x hx => by simp [h x hx])
  rw [hn]

/-- Witness for C7 at the concrete input "asdkjasd". -/
theorem claim_C7_default_fallback_witness :
    (chatbot ⟨"asdkjasd"⟩).reply = defaultReply :=
  claim_C7_default_fallback.1 "asdkjasd" (by decide)

/-- C9: every reply the responder can produce is one of the nine fixed
strings — the eight canned rule replies and the default fallback; the input
text never appears in the reply. -/
theorem claim_C9_fixed_reply_set (req : ChatRequest) :
    (chatbot req).reply ∈
      [hoursReply, addressReply, deliveryReply, priceReply, productReply,
       contactReply, socialReply, greetingReply, defaultReply] := by
  show (resolveUser (normalize req.message)).reply ∈ _
  unfold resolveUser
  (repeat' split) <;> simp

/-- C10: matching is raw substring containment, so any input whose
normalized text contains "hi" (even inside a word such as "washing") and no
trigger of the seven earlier rules gets the greeting reply. -/
theorem claim_C10_hi_inside_word (s : String)
    (hhi : pyIn "hi" (normalize s) = true)
    (h1 : matchesAny (normalize s) hoursTriggers = false)
    (h2 : matchesAny (normalize s) addressTriggers = false)
    (h3 : matchesAny (normalize s) deliveryTriggers = false)
    (h4 : matchesAny (normalize s) priceTriggers = false)
    (h5 : matchesAny (normalize s) productTriggers = false)
    (h6 : matchesAny (normalize s) contactTriggers = false)
    (h7 : matchesAny (normalize s) socialTriggers = false) :
    (chatbot ⟨s⟩).reply = greetingReply := by
  have hg : matchesAny (normalize s) greetingTriggers = true := by
    unfold matchesAny greetingTriggers
    simp [hhi]
  show (resolveUser (normalize s)).reply = greetingReply
  unfold resolveUser
  simp [h1, h2, h3, h4, h5, h6, h7, hg]

/-- Witness for C10 at the concrete input "washing". -/
theorem claim_C10_hi_inside_word_witness :
    (chatbot ⟨"washing"⟩).reply = greetingReply :=
  claim_C10_hi_inside_word "washing" (by decide) (by decide) (by decide)
    (by decide) (by decide) (by decide) (by decide) (by decide)

/-! ## Claim theorems: the contact pipeline -/

/-- C3: the persistence attempt's outcome is discarded — whether the database
client is absent or the write raises or succeeds, the response is the same,
and it is always exactly the (mapped) result of the unconditionally attempted
email notification. -/
theorem claim_C3_persistence_swallowed (env : Env) (s : ContactSubmission)
    (dbp : Bool) (wr : Except String Unit) :
    submit_contact (setDb env dbp wr) s =
      Except.map (fun b => (⟨true, ackMessage, b⟩ : ContactResponse))
        (send_email_notification env s) := by
  have hsm : send_email_notification (setDb env dbp wr) s =
      send_email_notification env s := by
    cases env
    rfl
  unfold submit_contact
  rw [hsm]
  cases hse : send_email_notification env s <;>
    simp [Except.map, Bind.bind, Except.bind, pure, Except.pure]

/-- C8: the pydantic validation bounds the message length to 5–1000: a
message of length 4 is rejected, and a message of length 5 with the other
fields valid is accepted. -/
theorem claim_C8_message_length (c : ContactSubmission) :
    (c.message.length = 4 → validContact c = false) ∧
    (c.message.length = 5 → 2 ≤ c.name.length → 6 ≤ c.phone.length →
      c.phone.length ≤ 20 → emailOk c.email = true → validContact c = true) := by
  constructor
  · intro h
    unfold validContact
    rw [h, show (decide (5 ≤ 4)) = false from rfl]
    simp
  · intro h hn hp1 hp2 he
    unfold validContact
    rw [h, decide_eq_true hn, decide_eq_true hp1, decide_eq_true hp2, he,
      show (decide (5 ≤ 5)) = true from rfl,
      show (decide ((5 : Nat) ≤ 1000)) = true from rfl]
    rfl

/-- Witness for C8: the same valid name/phone/email with a 4-character
message is rejected and with a 5-character message is accepted. -/
theorem claim_C8_message_length_witness :
    validContact ⟨"Asha Jain", "9876543210", none, "abcd"⟩ = false ∧
    validContact ⟨"Asha Jain", "9876543210", none, "abcde"⟩ = true :=
  ⟨(claim_C8_message_length _).1 (by decide),
   (claim_C8_message_length _).2 (by decide) (by decide) (by decide)
     (by decide) (by decide)⟩

end JainFoam
